import Mathlib

/-!
Shallow embedding of the funding-calculation engine of the
childcare-funding-calculator repository (src/src/FundingCalculator.jsx).

JavaScript numbers are modelled by `ℚ` (all computations in scope are exact
decimal/rational arithmetic; no claim probes a float-rounding knife edge).
`Math.round` is modelled by `jsRound` (round half toward +infinity),
`Math.ceil` by `Int.ceil`.  A JavaScript division whose result can be
non-finite (`NaN`/`Infinity`) is modelled by an `Option` returning `none`
exactly when the JS value is non-finite.  A computation that can throw a
`TypeError` or return `NaN` is modelled by `JsNumResult`, whose `thrown`
and `nan` constructors mark those outcomes.
-/

/-- JS `Math.round`: rounds half toward positive infinity. -/
def jsRound (q : ℚ) : ℤ := ⌊q + 0.5⌋

/-- `Math.round(x * 100) / 100` as used throughout the source: round to two
decimal places, half up. -/
def round2 (q : ℚ) : ℚ := (jsRound (q * 100) : ℚ) / 100

/-- JS `Math.ceil(a / b)`.  For `b = 0` the JS quotient is `±Infinity` (or
`NaN` when `a = 0` too) and `Math.ceil` propagates it, so the result is
non-finite: modelled as `none`. -/
def jsCeilDiv (a b : ℚ) : Option ℤ :=
  if b = 0 then none else some ⌈a / b⌉

/-- A funding scheme record of the `FUNDING_SCHEMES` catalog
(FundingCalculator.jsx lines 6-43). -/
structure FundingScheme where
  name : String
  description : String
  hoursPerYear : ℚ
  weeksTermTime : ℚ
  ageMin : ℚ
  ageMax : ℚ
  color : String
deriving DecidableEq

/-- The four catalogued scheme identifiers (the keys of the
`FUNDING_SCHEMES` object). -/
inductive SchemeId where
  | universal_15
  | eligible_2yr
  | extended_30
  | expanded_under2
deriving DecidableEq

/-- The `FUNDING_SCHEMES` catalog (lines 6-43), total on the four valid
keys. -/
def FUNDING_SCHEMES : SchemeId → FundingScheme
  | .universal_15 =>
    { name := "15 Hours Universal", description := "All 3-4 year olds",
      hoursPerYear := 570, weeksTermTime := 38, ageMin := 3, ageMax := 4,
      color := "#3B82F6" }
  | .eligible_2yr =>
    { name := "15 Hours (Eligible 2yr)", description := "Eligible 2 year olds",
      hoursPerYear := 570, weeksTermTime := 38, ageMin := 2, ageMax := 2,
      color := "#8B5CF6" }
  | .extended_30 =>
    { name := "30 Hours Extended", description := "Working parents 3-4yr olds",
      hoursPerYear := 1140, weeksTermTime := 38, ageMin := 3, ageMax := 4,
      color := "#10B981" }
  | .expanded_under2 =>
    { name := "15 Hours Expanded", description := "Working parents 9mo-2yr",
      hoursPerYear := 570, weeksTermTime := 38, ageMin := 0.75, ageMax := 2,
      color := "#F59E0B" }

/-- The JS object key of each catalogued scheme. -/
def schemeKey : SchemeId → String
  | .universal_15 => "universal_15"
  | .eligible_2yr => "eligible_2yr"
  | .extended_30 => "extended_30"
  | .expanded_under2 => "expanded_under2"

/-- The property names every plain JS object literal inherits from
`Object.prototype` (including the Annex B accessors present in all real
engines). -/
def objectPrototypeProps : List String :=
  ["constructor", "hasOwnProperty", "isPrototypeOf", "propertyIsEnumerable",
   "toLocaleString", "toString", "valueOf", "__proto__",
   "__defineGetter__", "__defineSetter__", "__lookupGetter__",
   "__lookupSetter__"]

/-- The value of a JS property access on the `FUNDING_SCHEMES` object
literal: an own property holding a scheme record, a member inherited from
`Object.prototype` (a function or object, not a scheme record), or the
absent value `undefined`. -/
inductive SchemeProp where
  | found : FundingScheme → SchemeProp
  | inherited : SchemeProp
  | absent : SchemeProp
deriving DecidableEq

/-- JS property access `FUNDING_SCHEMES[scheme]` for an arbitrary string
key: one of the four own keys yields its scheme record; a key naming an
`Object.prototype` member yields that inherited function/object; every
other key yields `undefined`.  Property access itself never throws. -/
def schemeLookup (id : String) : SchemeProp :=
  if id = "universal_15" then .found (FUNDING_SCHEMES .universal_15)
  else if id = "eligible_2yr" then .found (FUNDING_SCHEMES .eligible_2yr)
  else if id = "extended_30" then .found (FUNDING_SCHEMES .extended_30)
  else if id = "expanded_under2" then .found (FUNDING_SCHEMES .expanded_under2)
  else if id ∈ objectPrototypeProps then .inherited
  else .absent

/-- Outcome of a JS computation returning a number: `ok v` is a finite
result, `nan` is the non-finite number `NaN`, `thrown` is an uncaught
`TypeError`. -/
inductive JsNumResult where
  | ok : ℚ → JsNumResult
  | nan : JsNumResult
  | thrown : JsNumResult
deriving DecidableEq

/-- `calculateFundedWeeklyHours` (lines 97-103) at the string level of the
source: `const funding = FUNDING_SCHEMES[scheme]` never throws, but the
subsequent field access `funding.hoursPerYear` throws a `TypeError` when
`funding` is `undefined`.  When `funding` is an inherited
`Object.prototype` member, the field access yields `undefined` without
throwing, and the arithmetic (`undefined` divided, scaled by 100,
`Math.round`, divided by 100) propagates `NaN`. -/
def calculateFundedWeeklyHoursById (scheme : String) (stretched : Bool)
    (operatingWeeks : ℚ) : JsNumResult :=
  match schemeLookup scheme with
  | .absent => .thrown
  | .inherited => .nan
  | .found funding =>
    if stretched then .ok (round2 (funding.hoursPerYear / operatingWeeks))
    else .ok (round2 (funding.hoursPerYear / funding.weeksTermTime))

/-- `calculateFundedWeeklyHours` (lines 97-103) restricted to valid scheme
ids, the invariant the data model guarantees for every `Child.entitlement`.
`operatingWeeks` is a validated provider setting (the UI slider allows only
39-52); the function itself does not validate it, matching the source. -/
def calculateFundedWeeklyHours (scheme : SchemeId) (stretched : Bool)
    (operatingWeeks : ℚ) : ℚ :=
  let funding := FUNDING_SCHEMES scheme
  if stretched then round2 (funding.hoursPerYear / operatingWeeks)
  else round2 (funding.hoursPerYear / funding.weeksTermTime)

/-- A weekly attendance pattern: hours for each of the five weekdays. -/
structure WeeklyPattern where
  mon : ℚ
  tue : ℚ
  wed : ℚ
  thu : ℚ
  fri : ℚ
deriving DecidableEq

/-- `getWeeklyHours` (lines 93-95): sum of the five weekday hour values. -/
def getWeeklyHours (pattern : WeeklyPattern) : ℚ :=
  pattern.mon + pattern.tue + pattern.wed + pattern.thu + pattern.fri

/-- A child record.  `entitlement` is a valid scheme id, the invariant
stated by the data model (validated at the point of entry). -/
structure Child where
  id : ℤ
  name : String
  dob : String
  entitlement : SchemeId
  weeklyPattern : WeeklyPattern
  hoursUsed : ℚ
  stretchedOption : Bool
deriving DecidableEq

/-- The provider settings record (lines 119-124). -/
structure ProviderSettings where
  hourlyRate : ℚ
  operatingWeeks : ℚ
  mealCharge : ℚ
  consumablesCharge : ℚ
deriving DecidableEq

/-- The quotation request state (lines 138-144).  `childId` is `null` until a
child is selected. -/
structure QuotationRequest where
  childId : Option ℤ
  weeksToQuote : ℚ
  includeMeals : Bool
  mealsPerWeek : ℚ
  includeConsumables : Bool
deriving DecidableEq

/-- `getCurrentTermWeek` (lines 105-111), parameterised by the elapsed
milliseconds `today - termStart` (the source reads the real clock):
`Math.max(1, Math.min(Math.floor(ms / weekMs) + 1, 38))`. -/
def getCurrentTermWeek (msSinceTermStart : ℤ) : ℤ :=
  max 1 (min (⌊(msSinceTermStart : ℚ) / (7 * 24 * 60 * 60 * 1000)⌋ + 1) 38)

/-- The summary record (lines 147-166). -/
structure Summary where
  totalChildren : ℕ
  totalFundedHours : ℚ
  totalUsedHours : ℚ
  totalRemainingHours : ℚ
  averageUtilisation : ℤ
deriving DecidableEq

/-- One step of the `forEach` accumulation of lines 152-157: add the scheme
allocation, the child's usage and the difference to the three running
totals. -/
def summaryStep (acc : ℚ × ℚ × ℚ) (child : Child) : ℚ × ℚ × ℚ :=
  let scheme := FUNDING_SCHEMES child.entitlement
  (acc.1 + scheme.hoursPerYear, acc.2.1 + child.hoursUsed,
   acc.2.2 + (scheme.hoursPerYear - child.hoursUsed))

/-- The `forEach` accumulation of lines 152-157: running totals of funded,
used and remaining hours, all starting at 0. -/
def summaryTotals (children : List Child) : ℚ × ℚ × ℚ :=
  children.foldl summaryStep (0, 0, 0)

/-- The `summary` computation (lines 147-166): portfolio totals and the
zero-division-guarded average utilisation. -/
def computeSummary (children : List Child) : Summary :=
  let t := summaryTotals children
  { totalChildren := children.length
    totalFundedHours := t.1
    totalUsedHours := t.2.1
    totalRemainingHours := t.2.2
    averageUtilisation :=
      if 0 < t.1 then jsRound (t.2.1 / t.1 * 100) else 0 }

/-- An advisory suggestion (lines 169-220), carrying the numeric figures the
source embeds into its message/recommendation strings (before display
formatting).  For the under-utilisation warning, `recommendedIncrease` is
the value `Math.ceil(shortfall / weeksRemaining)`; `none` marks a
non-finite JS number. -/
inductive Suggestion where
  | warning (child : String) (projected : ℤ) (shortfall : ℤ)
      (recommendedIncrease : Option ℤ)
  | info (child : String) (weeklyBooked : ℚ) (fundedWeekly : ℚ) (excess : ℚ)
  | success (child : String) (stretchedWeekly : ℚ) (operatingWeeks : ℚ)
deriving DecidableEq

/-- The per-child body of the `forEach` of lines 174-217: up to three
suggestions, pushed in source order. -/
def childSuggestions (providerSettings : ProviderSettings)
    (weeksRemaining : ℤ) (child : Child) : List Suggestion :=
  let scheme := FUNDING_SCHEMES child.entitlement
  let weeklyBooked := getWeeklyHours child.weeklyPattern
  let fundedWeekly := calculateFundedWeeklyHours child.entitlement
    child.stretchedOption providerSettings.operatingWeeks
  let projectedUsage := child.hoursUsed + weeklyBooked * (weeksRemaining : ℚ)
  (if projectedUsage < scheme.hoursPerYear * 0.85 then
    let shortfall := scheme.hoursPerYear - projectedUsage
    [Suggestion.warning child.name (jsRound projectedUsage) (jsRound shortfall)
      (jsCeilDiv shortfall (weeksRemaining : ℚ))]
   else []) ++
  (if weeklyBooked > fundedWeekly + 2 then
    [Suggestion.info child.name weeklyBooked fundedWeekly
      (weeklyBooked - fundedWeekly)]
   else []) ++
  (if child.stretchedOption = false ∧ weeklyBooked > fundedWeekly then
    let stretchedWeekly := calculateFundedWeeklyHours child.entitlement true
      providerSettings.operatingWeeks
    if stretchedWeekly ≥ weeklyBooked * 0.9 then
      [Suggestion.success child.name stretchedWeekly
        providerSettings.operatingWeeks]
    else []
   else [])

/-- The `optimisations` computation (lines 169-220), parameterised by the
current term week (the source obtains it from `getCurrentTermWeek()`);
`weeksRemaining = 38 - currentWeek`. -/
def computeOptimisations (children : List Child)
    (providerSettings : ProviderSettings) (currentWeek : ℤ) : List Suggestion :=
  children.flatMap (childSuggestions providerSettings (38 - currentWeek))

/-- `updateChildHours` (lines 247-251): clamp the new hours at 0 from below
for the matching child; no upper cap. -/
def updateChildHours (children : List Child) (id : ℤ) (hours : ℚ) :
    List Child :=
  children.map (fun c =>
    if c.id = id then { c with hoursUsed := max 0 hours } else c)

/-- The quotation breakdown record returned by `generateQuotation`
(lines 273-286). -/
structure Quote where
  child : Child
  weeklyBooked : ℚ
  fundedWeekly : ℚ
  chargeableHours : ℚ
  weeklySessionCost : ℚ
  weeklyFundedValue : ℚ
  weeklyChargeableHours : ℚ
  weeklyMeals : ℚ
  weeklyConsumables : ℚ
  weeklyTotal : ℚ
  periodTotal : ℚ
  weeks : ℚ
deriving DecidableEq

/-- The body of `generateQuotation` after the child has been resolved
(lines 260-286). -/
def mkQuote (child : Child) (providerSettings : ProviderSettings)
    (quotation : QuotationRequest) : Quote :=
  let weeklyBooked := getWeeklyHours child.weeklyPattern
  let fundedWeekly := calculateFundedWeeklyHours child.entitlement
    child.stretchedOption providerSettings.operatingWeeks
  let chargeableHours := max 0 (weeklyBooked - fundedWeekly)
  let weeklySessionCost := weeklyBooked * providerSettings.hourlyRate
  let weeklyFundedValue := min weeklyBooked fundedWeekly *
    providerSettings.hourlyRate
  let weeklyChargeableHours := chargeableHours * providerSettings.hourlyRate
  let weeklyMeals := if quotation.includeMeals then
    quotation.mealsPerWeek * providerSettings.mealCharge else 0
  let weeklyConsumables := if quotation.includeConsumables then
    providerSettings.consumablesCharge * 5 else 0
  let weeklyTotal := weeklyChargeableHours + weeklyMeals + weeklyConsumables
  let periodTotal := weeklyTotal * quotation.weeksToQuote
  { child := child
    weeklyBooked := weeklyBooked
    fundedWeekly := fundedWeekly
    chargeableHours := chargeableHours
    weeklySessionCost := weeklySessionCost
    weeklyFundedValue := weeklyFundedValue
    weeklyChargeableHours := weeklyChargeableHours
    weeklyMeals := weeklyMeals
    weeklyConsumables := weeklyConsumables
    weeklyTotal := weeklyTotal
    periodTotal := periodTotal
    weeks := quotation.weeksToQuote }

/-- `generateQuotation` (lines 254-287).  `if (!quotation.childId) return
null` is JS truthiness: both `null` and the number `0` are falsy, so a
request with `childId = 0` yields `null` before the roster is searched.
`children.find(c => c.id === quotation.childId)` yields `null` (here
`none`) when no child matches. -/
def generateQuotation (children : List Child)
    (providerSettings : ProviderSettings) (quotation : QuotationRequest) :
    Option Quote :=
  match quotation.childId with
  | none => none
  | some cid =>
    if cid = 0 then none
    else
      match children.find? (fun c => c.id = cid) with
      | none => none
      | some child => some (mkQuote child providerSettings quotation)

/-- First sample child (lines 46-54). -/
def emmaThompson : Child :=
  { id := 1, name := "Emma Thompson", dob := "2022-03-15",
    entitlement := .extended_30,
    weeklyPattern := { mon := 6, tue := 6, wed := 6, thu := 6, fri := 6 },
    hoursUsed := 456, stretchedOption := false }

/-- Second sample child (lines 55-63). -/
def oliverSmith : Child :=
  { id := 2, name := "Oliver Smith", dob := "2023-06-20",
    entitlement := .eligible_2yr,
    weeklyPattern := { mon := 5, tue := 5, wed := 5, thu := 0, fri := 0 },
    hoursUsed := 180, stretchedOption := true }

/-- Third sample child (lines 64-72). -/
def sophiaWilliams : Child :=
  { id := 3, name := "Sophia Williams", dob := "2024-01-10",
    entitlement := .expanded_under2,
    weeklyPattern := { mon := 4, tue := 4, wed := 4, thu := 4, fri := 0 },
    hoursUsed := 96, stretchedOption := false }

/-- `SAMPLE_CHILDREN` (lines 45-73). -/
def SAMPLE_CHILDREN : List Child := [emmaThompson, oliverSmith, sophiaWilliams]

/-- The initial provider settings (lines 119-124). -/
def defaultProviderSettings : ProviderSettings :=
  { hourlyRate := 7.50, operatingWeeks := 51, mealCharge := 3.50,
    consumablesCharge := 1.50 }

/-- A quotation request with the initial state of lines 138-144 and the
first sample child selected. -/
def sampleRequest : QuotationRequest :=
  { childId := some 1, weeksToQuote := 4, includeMeals := true,
    mealsPerWeek := 5, includeConsumables := true }

/-- A child whose projected usage stays under 85% of the allocation: with no
booked hours and no recorded usage, projected annual usage is 0. -/
def degenerateChild : Child :=
  { id := 7, name := "Degenerate", dob := "2022-03-15",
    entitlement := .universal_15,
    weeklyPattern := { mon := 0, tue := 0, wed := 0, thu := 0, fri := 0 },
    hoursUsed := 0, stretchedOption := false }

/-- A child whose id is the number 0, which JS truthiness treats as falsy. -/
def zeroIdChild : Child :=
  { id := 0, name := "Zero Id", dob := "2022-01-01",
    entitlement := .universal_15,
    weeklyPattern := { mon := 6, tue := 6, wed := 6, thu := 6, fri := 6 },
    hoursUsed := 0, stretchedOption := false }

/-! Helper lemmas. -/

/-- Monotonicity of JS rounding. -/
theorem jsRound_mono {a b : ℚ} (h : a ≤ b) : jsRound a ≤ jsRound b :=
  Int.floor_le_floor (by linarith)

/-- Monotonicity of two-decimal rounding. -/
theorem round2_mono {a b : ℚ} (h : a ≤ b) : round2 a ≤ round2 b := by
  unfold round2
  have h2 : jsRound (a * 100) ≤ jsRound (b * 100) := jsRound_mono (by linarith)
  have h3 : ((jsRound (a * 100) : ℤ) : ℚ) ≤ ((jsRound (b * 100) : ℤ) : ℚ) := by
    exact_mod_cast h2
  linarith

/-- The remaining-hours accumulator stays equal to funded minus used. -/
theorem foldl_summaryStep (children : List Child) :
    ∀ acc : ℚ × ℚ × ℚ, acc.2.2 = acc.1 - acc.2.1 →
      (children.foldl summaryStep acc).2.2 =
        (children.foldl summaryStep acc).1 -
          (children.foldl summaryStep acc).2.1 := by
  induction children with
  | nil => exact fun acc h => h
  | cons child rest ih =>
    intro acc h
    rw [List.foldl_cons]
    apply ih
    simp only [summaryStep]
    linarith

/-- Funded hours plus chargeable excess recover the booked hours. -/
theorem min_add_sub_max (b f : ℚ) : min b f + max 0 (b - f) = b := by
  rcases le_total b f with h | h
  · rw [min_eq_left h, max_eq_left (by linarith)]
    ring
  · rw [min_eq_right h, max_eq_right (by linarith)]
    ring

/-- A quote is only ever produced as `mkQuote` of some resolved child. -/
theorem generateQuotation_eq_some {children : List Child}
    {s : ProviderSettings} {r : QuotationRequest} {q : Quote}
    (h : generateQuotation children s r = some q) :
    ∃ child, q = mkQuote child s r := by
  unfold generateQuotation at h
  split at h
  · exact absurd h (by simp)
  · split at h
    · exact absurd h (by simp)
    · split at h
      · exact absurd h (by simp)
      · exact ⟨_, (Option.some.inj h).symm⟩

/-- The string-level function agrees with the restriction to valid ids. -/
theorem calculateFundedWeeklyHoursById_key (sid : SchemeId) (st : Bool)
    (W : ℚ) :
    calculateFundedWeeklyHoursById (schemeKey sid) st W =
      JsNumResult.ok (calculateFundedWeeklyHours sid st W) := by
  cases sid <;> cases st <;> rfl

/-! Claim theorems. -/

/-- C1 (the code contradicts the specified guard): term week 38 is reachable
from `getCurrentTermWeek`, making `weeksRemaining = 38 - 38 = 0`; for a
child whose projected usage is below 85% of the allocation the advisor
still emits the under-utilisation suggestion, and its recommended weekly
increase `Math.ceil(shortfall / weeksRemaining)` divides by zero, yielding
the non-finite JS value `Infinity` (modelled `none`) instead of being
suppressed or reported as zero-feasible. -/
theorem C1_unguarded_shortfall_division :
    getCurrentTermWeek (40 * 7 * 24 * 60 * 60 * 1000) = 38 ∧
    computeOptimisations [degenerateChild] defaultProviderSettings 38 =
      [Suggestion.warning "Degenerate" 0 570 none] := by
  constructor
  · norm_num [getCurrentTermWeek]
  · norm_num [computeOptimisations, childSuggestions, degenerateChild,
      defaultProviderSettings, calculateFundedWeeklyHours, FUNDING_SCHEMES,
      getWeeklyHours, round2, jsRound, jsCeilDiv]

/-- C2 counterexample: for the unknown scheme id "nursery_99" the raw
registry lookup does yield the absent value, but
`calculateFundedWeeklyHours` dereferences it and throws a `TypeError`
rather than signalling "scheme not found" as a value; and for the unknown
scheme id "toString" the lookup yields the inherited
`Object.prototype.toString` rather than a typed absent value, after which
the function silently returns `NaN` — refuting both halves of the claim. -/
theorem C2_counterexample :
    schemeLookup "nursery_99" = SchemeProp.absent ∧
    calculateFundedWeeklyHoursById "nursery_99" false 51 =
      JsNumResult.thrown ∧
    schemeLookup "toString" = SchemeProp.inherited ∧
    calculateFundedWeeklyHoursById "toString" false 51 =
      JsNumResult.nan :=
  ⟨rfl, rfl, rfl, rfl⟩

/-- C2 (amended): the raw registry lookup never throws, but it signals the
absent value only for unknown ids that are not `Object.prototype` member
names; for the latter it yields the inherited member.
`calculateFundedWeeklyHours` guards neither case: on an unknown id it
throws a `TypeError` when the lookup was absent and silently returns `NaN`
when the lookup hit the prototype chain, while on every catalogued id it
returns normally — so callers must validate scheme ids against the
registry before calling it. -/
theorem C2_lookup_behaviour :
    ∀ (id : String) (stretched : Bool) (W : ℚ),
      (schemeLookup id = SchemeProp.absent ↔
        id ≠ "universal_15" ∧ id ≠ "eligible_2yr" ∧ id ≠ "extended_30" ∧
          id ≠ "expanded_under2" ∧ id ∉ objectPrototypeProps) ∧
      (schemeLookup id = SchemeProp.inherited ↔
        id ∈ objectPrototypeProps) ∧
      (schemeLookup id = SchemeProp.absent →
        calculateFundedWeeklyHoursById id stretched W =
          JsNumResult.thrown) ∧
      (schemeLookup id = SchemeProp.inherited →
        calculateFundedWeeklyHoursById id stretched W = JsNumResult.nan) ∧
      (∀ funding, schemeLookup id = SchemeProp.found funding →
        ∃ v, calculateFundedWeeklyHoursById id stretched W =
          JsNumResult.ok v) := by
  intro id st W
  refine ⟨?_, ?_, ?_, ?_, ?_⟩
  · unfold schemeLookup
    split_ifs with h1 h2 h3 h4 h5 <;> simp_all [objectPrototypeProps]
  · unfold schemeLookup
    split_ifs with h1 h2 h3 h4 h5 <;> simp_all [objectPrototypeProps]
  · intro h
    unfold calculateFundedWeeklyHoursById
    rw [h]
  · intro h
    unfold calculateFundedWeeklyHoursById
    rw [h]
  · intro funding hf
    unfold calculateFundedWeeklyHoursById
    rw [hf]
    cases st
    · exact ⟨_, rfl⟩
    · exact ⟨_, rfl⟩

/-- C2 witness: the amended theorem applied at the unknown id "nursery_zz"
yields the thrown fault, and applied at the prototype member name
"hasOwnProperty" yields the silent `NaN`. -/
theorem C2_witness :
    calculateFundedWeeklyHoursById "nursery_zz" true 45 =
      JsNumResult.thrown ∧
    calculateFundedWeeklyHoursById "hasOwnProperty" true 45 =
      JsNumResult.nan :=
  ⟨(C2_lookup_behaviour "nursery_zz" true 45).2.2.1 rfl,
    (C2_lookup_behaviour "hasOwnProperty" true 45).2.2.2.1 rfl⟩

/-- C3: for every catalogued scheme and every operating-weeks value, the
non-stretched path of `calculateFundedWeeklyHours` equals
`round2(hoursPerYear / 38)`; the right-hand side does not mention the
operating weeks, so the term-time path is independent of them. -/
theorem C3_termtime_path :
    ∀ (scheme : SchemeId) (W : ℚ),
      calculateFundedWeeklyHours scheme false W =
        round2 ((FUNDING_SCHEMES scheme).hoursPerYear / 38) := by
  intro scheme W
  cases scheme <;> rfl

/-- C4: every emitted quote's chargeable hours equal
`max(0, weeklyBooked - fundedWeekly)`, are never negative, and are exactly
zero whenever the funded weekly hours exceed the booked weekly hours. -/
theorem C4_chargeable_hours :
    ∀ (children : List Child) (providerSettings : ProviderSettings)
      (quotation : QuotationRequest) (q : Quote),
      generateQuotation children providerSettings quotation = some q →
      q.chargeableHours = max 0 (q.weeklyBooked - q.fundedWeekly) ∧
        0 ≤ q.chargeableHours ∧
        (q.weeklyBooked < q.fundedWeekly → q.chargeableHours = 0) := by
  intro children s r q h
  obtain ⟨child, rfl⟩ := generateQuotation_eq_some h
  refine ⟨rfl, le_max_left _ _, fun hlt => max_eq_left (by
    have : (mkQuote child s r).weeklyBooked -
        (mkQuote child s r).fundedWeekly ≤ 0 := by linarith
    exact this)⟩

/-- C4 witness: the theorem at the sample roster, the default settings and
the request selecting the first sample child. -/
theorem C4_witness :
    0 ≤ (mkQuote emmaThompson defaultProviderSettings
      sampleRequest).chargeableHours :=
  (C4_chargeable_hours SAMPLE_CHILDREN defaultProviderSettings sampleRequest
    (mkQuote emmaThompson defaultProviderSettings sampleRequest)
    (by norm_num [generateQuotation, sampleRequest, SAMPLE_CHILDREN,
      List.find?, emmaThompson])).2.1

/-- C5: every emitted quote costs consumables at exactly five days when
included and zero otherwise, costs meals at `mealsPerWeek * mealCharge`
when included and zero otherwise, sums the weekly total from the
chargeable-hours cost, the meals cost and the consumables cost, and scales
the period total by the requested number of weeks. -/
theorem C5_cost_lines :
    ∀ (children : List Child) (providerSettings : ProviderSettings)
      (quotation : QuotationRequest) (q : Quote),
      generateQuotation children providerSettings quotation = some q →
      q.weeklyConsumables = (if quotation.includeConsumables then
        providerSettings.consumablesCharge * 5 else 0) ∧
      q.weeklyMeals = (if quotation.includeMeals then
        quotation.mealsPerWeek * providerSettings.mealCharge else 0) ∧
      q.weeklyTotal = q.weeklyChargeableHours + q.weeklyMeals +
        q.weeklyConsumables ∧
      q.periodTotal = q.weeklyTotal * quotation.weeksToQuote := by
  intro children s r q h
  obtain ⟨child, rfl⟩ := generateQuotation_eq_some h
  exact ⟨rfl, rfl, rfl, rfl⟩

/-- C5 witness: the theorem at the sample roster; the period total is the
weekly total times the requested four weeks. -/
theorem C5_witness :
    (mkQuote emmaThompson defaultProviderSettings sampleRequest).periodTotal =
      (mkQuote emmaThompson defaultProviderSettings
        sampleRequest).weeklyTotal * sampleRequest.weeksToQuote :=
  (C5_cost_lines SAMPLE_CHILDREN defaultProviderSettings sampleRequest
    (mkQuote emmaThompson defaultProviderSettings sampleRequest)
    (by norm_num [generateQuotation, sampleRequest, SAMPLE_CHILDREN,
      List.find?, emmaThompson])).2.2.2

/-- C6: for every roster, the summary's remaining hours are exactly the
funded total minus the used total (no clamping, so a negative value is
representable), the average utilisation is the rounded percentage when the
funded total is positive and 0 otherwise, and the empty roster reports an
average utilisation of exactly 0. -/
theorem C6_summary_totals :
    ∀ children : List Child,
      (computeSummary children).totalRemainingHours =
        (computeSummary children).totalFundedHours -
          (computeSummary children).totalUsedHours ∧
      (computeSummary children).averageUtilisation =
        (if 0 < (computeSummary children).totalFundedHours then
          jsRound ((computeSummary children).totalUsedHours /
            (computeSummary children).totalFundedHours * 100)
        else 0) ∧
      (computeSummary ([] : List Child)).averageUtilisation = 0 := by
  intro children
  refine ⟨?_, rfl, ?_⟩
  · exact foldl_summaryStep children (0, 0, 0) (by norm_num)
  · norm_num [computeSummary, summaryTotals]

/-- C7: for every catalogued scheme, the stretched funded weekly hours are
non-increasing in the operating weeks across the valid range 39 to 52. -/
theorem C7_stretched_monotone :
    ∀ (scheme : SchemeId) (W₁ W₂ : ℚ), 39 ≤ W₁ → W₁ ≤ W₂ → W₂ ≤ 52 →
      calculateFundedWeeklyHours scheme true W₂ ≤
        calculateFundedWeeklyHours scheme true W₁ := by
  intro scheme W₁ W₂ h39 h12 _
  show round2 ((FUNDING_SCHEMES scheme).hoursPerYear / W₂) ≤
    round2 ((FUNDING_SCHEMES scheme).hoursPerYear / W₁)
  apply round2_mono
  apply div_le_div_of_nonneg_left _ (by linarith) h12
  cases scheme <;> norm_num [FUNDING_SCHEMES]

/-- C7 witness: the theorem at the extended 30-hours scheme with the
extreme operating-weeks pair 39 and 52. -/
theorem C7_witness :
    calculateFundedWeeklyHours .extended_30 true 52 ≤
      calculateFundedWeeklyHours .extended_30 true 39 :=
  C7_stretched_monotone .extended_30 39 52 (by norm_num) (by norm_num)
    (by norm_num)

/-- C8 counterexample: a roster child with id 0 is matched by a request
whose childId is 0, yet `generateQuotation` returns the empty result (JS
truthiness treats the number 0 like null), refuting the claim that every
matching childId yields a non-empty breakdown. -/
theorem C8_counterexample :
    zeroIdChild ∈ [zeroIdChild] ∧ zeroIdChild.id = 0 ∧
    generateQuotation [zeroIdChild] defaultProviderSettings
      { childId := some 0, weeksToQuote := 4, includeMeals := true,
        mealsPerWeek := 5, includeConsumables := true } = none :=
  ⟨List.mem_singleton_self _, rfl, rfl⟩

/-- C8 (amended): an absent childId yields the explicit empty result, a
childId matching no roster child yields the explicit empty result, and a
childId that matches a roster child and is non-zero (the JS falsy guard
`!childId` also treats the id 0 as "none selected") yields a non-empty
breakdown; no case raises an error. -/
theorem C8_child_resolution :
    ∀ (children : List Child) (providerSettings : ProviderSettings)
      (quotation : QuotationRequest),
      (quotation.childId = none →
        generateQuotation children providerSettings quotation = none) ∧
      (∀ cid, quotation.childId = some cid →
        (∀ c ∈ children, c.id ≠ cid) →
        generateQuotation children providerSettings quotation = none) ∧
      (∀ cid c, quotation.childId = some cid → cid ≠ 0 → c ∈ children →
        c.id = cid →
        (generateQuotation children providerSettings quotation).isSome =
          true) := by
  intro children s r
  refine ⟨?_, ?_, ?_⟩
  · intro h
    unfold generateQuotation
    rw [h]
  · intro cid hcid hno
    unfold generateQuotation
    rw [hcid]
    dsimp only
    by_cases h0 : cid = 0
    · rw [if_pos h0]
    · rw [if_neg h0]
      have hf : children.find? (fun c => c.id = cid) = none :=
        List.find?_eq_none.mpr (fun x hx => by simpa using hno x hx)
      rw [hf]
  · intro cid c hcid h0 hmem hid
    unfold generateQuotation
    rw [hcid]
    dsimp only
    rw [if_neg h0]
    have hs : (children.find? (fun c => c.id = cid)).isSome = true :=
      List.find?_isSome.mpr ⟨c, hmem, by simpa using hid⟩
    cases hf : children.find? (fun c => c.id = cid) with
    | none => rw [hf] at hs; simp at hs
    | some child => rfl

/-- C8 witness: the amended theorem at the sample roster with the first
sample child selected. -/
theorem C8_witness :
    (generateQuotation SAMPLE_CHILDREN defaultProviderSettings
      sampleRequest).isSome = true :=
  (C8_child_resolution SAMPLE_CHILDREN defaultProviderSettings
    sampleRequest).2.2 1 emmaThompson rfl (by norm_num)
    (by simp [SAMPLE_CHILDREN]) rfl

/-- C9: after updating a child's hours, the matching child stores
`max(0, hours)` — never negative — and no upper cap is applied: any
non-negative input, including one exceeding the annual allocation, is
stored as given. -/
theorem C9_update_clamps_below_only :
    ∀ (children : List Child) (id : ℤ) (hours : ℚ),
      ∀ c ∈ updateChildHours children id hours, c.id = id →
        c.hoursUsed = max 0 hours ∧ 0 ≤ c.hoursUsed ∧
        (0 ≤ hours → c.hoursUsed = hours) := by
  intro children id hours c hmem hid
  obtain ⟨c0, hc0, hform⟩ := List.mem_map.mp hmem
  by_cases h : c0.id = id
  · rw [if_pos h] at hform
    subst hform
    exact ⟨rfl, le_max_left _ _, fun hpos => max_eq_right hpos⟩
  · rw [if_neg h] at hform
    subst hform
    exact absurd hid h

/-- C9 witness: updating the first sample child to 99999 hours — far above
the 1140-hour allocation — stores exactly 99999. -/
theorem C9_witness :
    ({ emmaThompson with hoursUsed := max 0 99999 } : Child).hoursUsed =
      99999 :=
  (C9_update_clamps_below_only SAMPLE_CHILDREN 1 99999
    { emmaThompson with hoursUsed := max 0 99999 }
    (by simp [updateChildHours, SAMPLE_CHILDREN, emmaThompson, oliverSmith,
      sophiaWilliams])
    rfl).2.2 (by norm_num)

/-- C10: every emitted quote satisfies the exact cost decomposition: the
weekly session cost equals the weekly funded value plus the weekly
chargeable-hours cost. -/
theorem C10_session_cost_decomposition :
    ∀ (children : List Child) (providerSettings : ProviderSettings)
      (quotation : QuotationRequest) (q : Quote),
      generateQuotation children providerSettings quotation = some q →
      q.weeklySessionCost = q.weeklyFundedValue + q.weeklyChargeableHours := by
  intro children s r q h
  obtain ⟨child, rfl⟩ := generateQuotation_eq_some h
  show getWeeklyHours child.weeklyPattern * s.hourlyRate =
    min (getWeeklyHours child.weeklyPattern)
      (calculateFundedWeeklyHours child.entitlement child.stretchedOption
        s.operatingWeeks) * s.hourlyRate +
    max 0 (getWeeklyHours child.weeklyPattern -
      calculateFundedWeeklyHours child.entitlement child.stretchedOption
        s.operatingWeeks) * s.hourlyRate
  rw [← add_mul, min_add_sub_max]

/-- C10 witness: the theorem at the sample roster with the first sample
child selected. -/
theorem C10_witness :
    (mkQuote emmaThompson defaultProviderSettings
        sampleRequest).weeklySessionCost =
      (mkQuote emmaThompson defaultProviderSettings
        sampleRequest).weeklyFundedValue +
      (mkQuote emmaThompson defaultProviderSettings
        sampleRequest).weeklyChargeableHours :=
  C10_session_cost_decomposition SAMPLE_CHILDREN defaultProviderSettings
    sampleRequest (mkQuote emmaThompson defaultProviderSettings sampleRequest)
    (by norm_num [generateQuotation, sampleRequest, SAMPLE_CHILDREN,
      List.find?, emmaThompson])
